import Mathlib

/-!
# Verification of `brainsmash/neuro/cifti.py`

A shallow embedding of the module `brainsmash.neuro.cifti` and proofs of its
specified properties.  The module has two functions:

* `make_fs_key structure hemisphere` — validates an anatomical structure
  name and optional hemisphere (both case-insensitive) and returns the
  canonical FreeSurfer label.  Python `assert` failures are modelled by
  returning `none`; a successful return is `some label`.

* `export_cifti_mapping image` — shells out to the external `wb_command`
  tool three times (writing three text files into the system temporary
  directory) and parses those files into three keyed tables.  The external
  tool and the filesystem are modelled as explicit parameters; the pandas
  table parser is modelled as the capability "parse whitespace-tokenized
  rows with a given column schema into a keyed table", per the module's
  documented use of it.

Python's `str.lower`/`str.upper` on the ASCII strings this module works with
agree with mapping Lean's `Char.toLower`/`Char.toUpper` over the characters,
which is how `pyLower`/`pyUpper` are defined below.
-/

namespace Cifti

/-! ## Python string case operations -/

/-- Python `str.lower` restricted to ASCII: map `Char.toLower` over the
characters. -/
def pyLower (s : String) : String := ⟨s.data.map Char.toLower⟩

/-- Python `str.upper` restricted to ASCII: map `Char.toUpper` over the
characters. -/
def pyUpper (s : String) : String := ⟨s.data.map Char.toUpper⟩

/-! ## Constants of the module -/

/-- Gross anatomical structure names (`structures` in the source). -/
def structures : List String :=
  ["diencephalon_ventral", "brain_stem", "thalamus", "cerebellum",
   "hippocampus", "pallidum", "accumbens", "putamen", "amygdala",
   "caudate", "cortex"]

/-- FreeSurfer anatomical structure names (`freesurfer_structures` in the
source). -/
def freesurfer_structures : List String :=
  ["BRAIN_STEM", "DIENCEPHALON_VENTRAL_LEFT",
   "DIENCEPHALON_VENTRAL_RIGHT", "THALAMUS_LEFT",
   "THALAMUS_RIGHT", "CEREBELLUM_LEFT",
   "CEREBELLUM_RIGHT", "HIPPOCAMPUS_LEFT",
   "HIPPOCAMPUS_RIGHT", "PALLIDUM_LEFT", "PALLIDUM_RIGHT",
   "ACCUMBENS_LEFT", "ACCUMBENS_RIGHT", "PUTAMEN_LEFT",
   "PUTAMEN_RIGHT", "AMYGDALA_LEFT", "AMYGDALA_RIGHT",
   "CAUDATE_LEFT", "CAUDATE_RIGHT", "CORTEX_LEFT",
   "CORTEX_RIGHT"]

/-! ## `make_fs_key` -/

/-- Embedding of `make_fs_key(structure, hemisphere)`.  The first parameter
is called `struct` because `structure` is a Lean keyword.  `hemisphere` is
`Option String`, with `none` for Python `None`.  A Python `assert` failure
is modelled as `none`; the returned label is `some label`.  The source:

    assert structure.lower() in structures
    if hemisphere is not None:
        hemisphere = hemisphere.lower()
    assert hemisphere in ['left', 'right', None]
    s = structure.upper()
    if hemisphere is not None:
        assert s != 'BRAIN_STEM'
        s += '_' + hemisphere.upper()
    else:
        assert s == 'BRAIN_STEM'
    return s
-/
def make_fs_key (struct : String) (hemisphere : Option String) : Option String :=
  if pyLower struct ∈ structures then
    if hemisphere.map pyLower = some "left" ∨ hemisphere.map pyLower = some "right" ∨
        hemisphere.map pyLower = none then
      match hemisphere.map pyLower with
      | some h =>
        if pyUpper struct ≠ "BRAIN_STEM" then
          some (pyUpper struct ++ "_" ++ pyUpper h)
        else none
      | none => if pyUpper struct = "BRAIN_STEM" then some (pyUpper struct) else none
    else none
  else none

/-- The 21 valid `(structure, hemisphere)` inputs of `make_fs_key`, in
canonical lowercase form, ordered to match `freesurfer_structures`. -/
def validInputs : List (String × Option String) :=
  [("brain_stem", none),
   ("diencephalon_ventral", some "left"), ("diencephalon_ventral", some "right"),
   ("thalamus", some "left"), ("thalamus", some "right"),
   ("cerebellum", some "left"), ("cerebellum", some "right"),
   ("hippocampus", some "left"), ("hippocampus", some "right"),
   ("pallidum", some "left"), ("pallidum", some "right"),
   ("accumbens", some "left"), ("accumbens", some "right"),
   ("putamen", some "left"), ("putamen", some "right"),
   ("amygdala", some "left"), ("amygdala", some "right"),
   ("caudate", some "left"), ("caudate", some "right"),
   ("cortex", some "left"), ("cortex", some "right")]

/-! ## Model of `export_cifti_mapping`

The external `wb_command` tool is an opaque collaborator: it is modelled as
a parameter transforming (command string, filesystem) to (filesystem, exit
status), mirroring `os.system`.  The filesystem is an association list from
paths to tokenized file contents.  `pd.read_table` is modelled as the
capability of parsing whitespace-tokenized rows against a declared column
schema into a table keyed by the first column.  The function's observable
actions are recorded in an ordered trace of effects. -/

/-- Tokenized contents of a whitespace-delimited text file: rows of fields. -/
abbrev FileData := List (List String)

/-- A filesystem fragment: an association list from paths to file contents. -/
abbrev FSMap := List (String × FileData)

/-- Look up a path in a filesystem fragment. -/
def lookupFS (fs : FSMap) (p : String) : Option FileData :=
  match fs with
  | [] => none
  | (q, d) :: rest => if q = p then some d else lookupFS rest p

/-- Result of one external-tool invocation: the filesystem it leaves behind
and the exit status that `os.system` returns (and the source discards). -/
structure ToolResult where
  fs : FSMap
  exit : Int
deriving DecidableEq

/-- The external tool, as an opaque transformer. -/
abbrev Tool := String → FSMap → ToolResult

/-- `os.path.join(a, b)` for the shapes used by the source (`b` is a plain
relative file name): `b` if `b` is absolute, `a + b` if `a` is empty or ends
with a separator, and `a + "/" + b` otherwise. -/
def joinPath (a b : String) : String :=
  if b.data.take 1 = ['/'] then b
  else if a = "" ∨ a.data.getLast? = some '/' then a ++ b
  else a ++ "/" ++ b

/-- `join(tempdir, "volume.txt")`. -/
def volumePath (tempdir : String) : String := joinPath tempdir "volume.txt"

/-- `join(tempdir, "left.txt")`. -/
def leftPath (tempdir : String) : String := joinPath tempdir "left.txt"

/-- `join(tempdir, "right.txt")`. -/
def rightPath (tempdir : String) : String := joinPath tempdir "right.txt"

/-- `"wb_command -cifti-export-dense-mapping '{}' COLUMN ".format(image)`.
Note the trailing space, as in the source. -/
def basecmd (image : String) : String :=
  "wb_command -cifti-export-dense-mapping '" ++ image ++ "' COLUMN "

/-- `basecmd + " -volume-all '{}' -structure ".format(volume)` — the
subcortex invocation; no structure name follows `-structure`. -/
def volumeCmd (image volume : String) : String :=
  basecmd image ++ " -volume-all '" ++ volume ++ "' -structure "

/-- `basecmd + "-surface CORTEX_LEFT '{}'".format(left)`. -/
def leftCmd (image left : String) : String :=
  basecmd image ++ "-surface CORTEX_LEFT '" ++ left ++ "'"

/-- `basecmd + "-surface CORTEX_RIGHT '{}'".format(right)`. -/
def rightCmd (image right : String) : String :=
  basecmd image ++ "-surface CORTEX_RIGHT '" ++ right ++ "'"

/-- The three shell commands in invocation order (subcortex, left cortex,
right cortex). -/
def commandList (image volume left right : String) : List String :=
  [volumeCmd image volume, leftCmd image left, rightCmd image right]

/-- `image if image is not None else parcel_labels_lr`: resolution of the
optional image argument against the configured default. -/
def imageOf (parcel_labels_lr : String) (image : Option String) : String :=
  match image with
  | none => parcel_labels_lr
  | some p => p

/-- Errors surfaced by table loading: the file is missing, or a row does
not match the declared column schema. -/
inductive LoadError where
  | missingFile (path : String)
  | malformed (path : String)
deriving DecidableEq

/-- A keyed table: the index axis name (`rename_axis('index')`), the data
column names, and rows of (index value, data fields). -/
structure Table where
  indexName : String
  colNames : List String
  rows : List (String × List String)
deriving DecidableEq

/-- Parse one tokenized row against a column schema: the first field is the
index (`index_col=0`), the remaining fields must fill the declared columns. -/
def parseRow (names : List String) (row : List String) :
    Option (String × List String) :=
  match row with
  | [] => none
  | i :: rest => if rest.length = names.length then some (i, rest) else none

/-- Result of loading one table. -/
inductive TableResult where
  | ok (t : Table)
  | error (e : LoadError)
deriving DecidableEq

/-- `pd.read_table(path, header=None, index_col=0, sep=' ',
names=names).rename_axis('index')`. -/
def read_table (fs : FSMap) (path : String) (names : List String) : TableResult :=
  match lookupFS fs path with
  | none => .error (.missingFile path)
  | some rows =>
    match rows.mapM (parseRow names) with
    | none => .error (.malformed path)
    | some rs => .ok { indexName := "index", colNames := names, rows := rs }

/-- The returned dictionary, with exactly its three keys. -/
structure Maps where
  cortex_left : Table
  cortex_right : Table
  subcortex : Table
deriving DecidableEq

/-- Overall outcome of the export: the returned maps, or the error
propagated from table loading (nothing is caught internally). -/
inductive MapsResult where
  | ok (maps : Maps)
  | error (e : LoadError)
deriving DecidableEq

/-- Observable filesystem-affecting actions, in program order.  The source
only runs commands and reads files; `removeFile` is available in the
vocabulary precisely so that its absence from every trace is a theorem. -/
inductive Effect where
  | runCmd (cmd : String)
  | readFile (path : String)
  | removeFile (path : String)
deriving DecidableEq

/-- An export run: final filesystem, effect trace, and result. -/
structure ExportOutcome where
  fs : FSMap
  trace : List Effect
  result : MapsResult
deriving DecidableEq

/-- The filesystem after the three `os.system` calls, in source order. -/
def afterCommands (tool : Tool) (tempdir parcel_labels_lr : String)
    (image : Option String) (fs0 : FSMap) : FSMap :=
  (tool (rightCmd (imageOf parcel_labels_lr image) (rightPath tempdir))
    ((tool (leftCmd (imageOf parcel_labels_lr image) (leftPath tempdir))
      ((tool (volumeCmd (imageOf parcel_labels_lr image) (volumePath tempdir))
        fs0).fs)).fs)).fs

/-- The `runCmd` effects of the three `os.system` calls, in source order. -/
def exportCmdTrace (tempdir parcel_labels_lr : String) (image : Option String) :
    List Effect :=
  (commandList (imageOf parcel_labels_lr image) (volumePath tempdir)
    (leftPath tempdir) (rightPath tempdir)).map Effect.runCmd

/-- Embedding of `export_cifti_mapping(image)`.  `tool` is the external
`wb_command` process, `tempdir` is `tempfile.gettempdir()`,
`parcel_labels_lr` is the configured default image path, and `fs0` is the
filesystem at entry.  The three commands run first (their exit statuses are
discarded), then the three files are parsed in source order — subcortex,
left cortex, right cortex — with the first parse error propagating and
aborting the remaining reads, as an uncaught Python exception would. -/
def export_cifti_mapping (tool : Tool) (tempdir parcel_labels_lr : String)
    (image : Option String) (fs0 : FSMap) : ExportOutcome :=
  match read_table (afterCommands tool tempdir parcel_labels_lr image fs0)
      (volumePath tempdir) ["structure", "mni_i", "mni_j", "mni_k"] with
  | .error e =>
    { fs := afterCommands tool tempdir parcel_labels_lr image fs0,
      trace := exportCmdTrace tempdir parcel_labels_lr image ++
        [.readFile (volumePath tempdir)],
      result := .error e }
  | .ok tsub =>
    match read_table (afterCommands tool tempdir parcel_labels_lr image fs0)
        (leftPath tempdir) ["vertex"] with
    | .error e =>
      { fs := afterCommands tool tempdir parcel_labels_lr image fs0,
        trace := exportCmdTrace tempdir parcel_labels_lr image ++
          [.readFile (volumePath tempdir), .readFile (leftPath tempdir)],
        result := .error e }
    | .ok tleft =>
      match read_table (afterCommands tool tempdir parcel_labels_lr image fs0)
          (rightPath tempdir) ["vertex"] with
      | .error e =>
        { fs := afterCommands tool tempdir parcel_labels_lr image fs0,
          trace := exportCmdTrace tempdir parcel_labels_lr image ++
            [.readFile (volumePath tempdir), .readFile (leftPath tempdir),
             .readFile (rightPath tempdir)],
          result := .error e }
      | .ok tright =>
        { fs := afterCommands tool tempdir parcel_labels_lr image fs0,
          trace := exportCmdTrace tempdir parcel_labels_lr image ++
            [.readFile (volumePath tempdir), .readFile (leftPath tempdir),
             .readFile (rightPath tempdir)],
          result := .ok { cortex_left := tleft, cortex_right := tright,
                          subcortex := tsub } }

/-- The shell commands recorded in a trace, in order. -/
def commandsOf (tr : List Effect) : List String :=
  tr.filterMap fun e =>
    match e with
    | .runCmd c => some c
    | _ => none

/-- A tool stub that leaves the filesystem unchanged and exits with 0. -/
def toolNoop : Tool := fun _ fs => { fs := fs, exit := 0 }

/-- A tool stub that leaves the filesystem unchanged and exits with 1. -/
def toolNoopFail : Tool := fun _ fs => { fs := fs, exit := 1 }

/-! ## Character and string case lemmas -/

/-- `(Char.ofNat n).toNat = n` whenever `n` is below the surrogate range. -/
theorem char_toNat_ofNat (n : Nat) (h : n < 55296) : (Char.ofNat n).toNat = n := by
  unfold Char.ofNat
  rw [dif_pos (Or.inl h)]
  rfl

/-- Lowercasing then uppercasing an ASCII character is the same as
uppercasing it directly. -/
theorem toUpper_toLower (c : Char) : c.toLower.toUpper = c.toUpper := by
  unfold Char.toLower Char.toUpper
  by_cases h : c.toNat ≥ 65 ∧ c.toNat ≤ 90
  · rw [if_pos h]
    have h32 : (Char.ofNat (c.toNat + 32)).toNat = c.toNat + 32 :=
      char_toNat_ofNat _ (by omega)
    rw [if_pos (by omega)]
    rw [if_neg (by omega)]
    rw [h32]
    have : c.toNat + 32 - 32 = c.toNat := by omega
    rw [this, Char.ofNat_toNat]
  · rw [if_neg h]

/-- Uppercasing a lowercased string is the same as uppercasing it directly. -/
theorem pyUpper_pyLower (s : String) : pyUpper (pyLower s) = pyUpper s := by
  unfold pyUpper pyLower
  simp [List.map_map, Function.comp_def, toUpper_toLower]

/-- Rewriting `pyUpper s` along a known lowercasing of `s`. -/
theorem pyUpper_congr (s t : String) (h : pyLower s = t) : pyUpper s = pyUpper t := by
  rw [← pyUpper_pyLower s, h]

/-- For any string whose lowercasing is a recognized structure name, its
uppercasing is `BRAIN_STEM` exactly when its lowercasing is `brain_stem`. -/
theorem upper_brainstem_iff (s : String) (m : pyLower s ∈ structures) :
    pyUpper s = "BRAIN_STEM" ↔ pyLower s = "brain_stem" := by
  constructor
  · intro hb
    have hu := pyUpper_pyLower s
    simp only [structures, List.mem_cons, List.not_mem_nil, or_false] at m
    rcases m with h | h | h | h | h | h | h | h | h | h | h <;> rw [h] at hu
    · exact absurd (hu.trans hb) (by decide)
    · exact h
    all_goals exact absurd (hu.trans hb) (by decide)
  · intro hl
    rw [pyUpper_congr s _ hl]
    decide

example : make_fs_key "cortex" (some "left") = some "CORTEX_LEFT" := by decide
example : make_fs_key "Cortex" (some "Right") = some "CORTEX_RIGHT" := by decide
example : make_fs_key "brain_stem" none = some "BRAIN_STEM" := by decide
example : make_fs_key "brain_stem" (some "left") = none := by decide
example : make_fs_key "made_up_structure" none = none := by decide

/-! ## Claims about `make_fs_key` -/

/-- **C1**: for every structure in the fixed 11-member structure set (matched
case-insensitively) and every hemisphere in {left, right} (matched
case-insensitively), with structure not brain_stem, `make_fs_key` returns the
uppercased structure name followed by `_` and the uppercased hemisphere; and
`make_fs_key "brain_stem" none` returns `"BRAIN_STEM"`. -/
theorem make_fs_key_valid_inputs (s h : String)
    (hs : pyLower s ∈ structures) (hsb : pyLower s ≠ "brain_stem")
    (hh : pyLower h = "left" ∨ pyLower h = "right") :
    make_fs_key s (some h) = some (pyUpper s ++ "_" ++ pyUpper h) ∧
    make_fs_key "brain_stem" none = some "BRAIN_STEM" := by
  refine ⟨?_, by decide⟩
  have hne : pyUpper s ≠ "BRAIN_STEM" := fun hb => hsb ((upper_brainstem_iff s hs).mp hb)
  show (if pyLower s ∈ structures then
      if some (pyLower h) = some "left" ∨ some (pyLower h) = some "right" ∨
          (some (pyLower h) : Option String) = none then
        if pyUpper s ≠ "BRAIN_STEM" then some (pyUpper s ++ "_" ++ pyUpper (pyLower h))
        else none
      else none
    else none) = some (pyUpper s ++ "_" ++ pyUpper h)
  rw [if_pos hs, if_pos (by rcases hh with h1 | h1 <;> simp [h1]), if_pos hne,
    pyUpper_pyLower]

/-- Witness for C1 at `("Cortex", "Left")`. -/
theorem make_fs_key_valid_inputs_witness :
    make_fs_key "Cortex" (some "Left") =
      some (pyUpper "Cortex" ++ "_" ++ pyUpper "Left") ∧
    make_fs_key "brain_stem" none = some "BRAIN_STEM" :=
  make_fs_key_valid_inputs "Cortex" "Left" (by decide) (by decide) (Or.inl (by decide))

/-- **C2**: `make_fs_key` fails (returns `none`, modelling an `assert`
violation) exactly when the lowercased structure is unrecognized, or the
hemisphere is neither left nor right nor none, or the hemisphere is none
while the structure is not brain_stem, or the hemisphere is left/right while
the structure is brain_stem; in particular `make_fs_key "brain_stem"
(some "left")` and `make_fs_key "made_up_structure" none` both fail. -/
theorem make_fs_key_failure_iff :
    (∀ (s : String) (h : Option String),
      make_fs_key s h = none ↔
        pyLower s ∉ structures ∨
        (∃ t, h = some t ∧ pyLower t ≠ "left" ∧ pyLower t ≠ "right") ∨
        (h = none ∧ pyLower s ≠ "brain_stem") ∨
        ((∃ t, h = some t ∧ (pyLower t = "left" ∨ pyLower t = "right")) ∧
          pyLower s = "brain_stem")) ∧
    make_fs_key "brain_stem" (some "left") = none ∧
    make_fs_key "made_up_structure" none = none := by
  refine ⟨?_, by decide, by decide⟩
  intro s h
  by_cases m : pyLower s ∈ structures
  · cases h with
    | none =>
      have heq : make_fs_key s none =
          if pyUpper s = "BRAIN_STEM" then some (pyUpper s) else none := by
        show (if pyLower s ∈ structures then
            if (none : Option String) = some "left" ∨
                (none : Option String) = some "right" ∨
                (none : Option String) = none then
              if pyUpper s = "BRAIN_STEM" then some (pyUpper s) else none
            else none
          else none) = _
        rw [if_pos m, if_pos (by simp)]
      rw [heq]
      by_cases hb : pyUpper s = "BRAIN_STEM"
      · rw [if_pos hb]
        simp [m, (upper_brainstem_iff s m).mp hb]
        decide
      · rw [if_neg hb]
        have hnb : pyLower s ≠ "brain_stem" :=
          fun hl => hb ((upper_brainstem_iff s m).mpr hl)
        simp [m, hnb]
    | some t =>
      by_cases hc : pyLower t = "left" ∨ pyLower t = "right"
      · have heq : make_fs_key s (some t) =
            if pyUpper s ≠ "BRAIN_STEM" then
              some (pyUpper s ++ "_" ++ pyUpper (pyLower t))
            else none := by
          show (if pyLower s ∈ structures then
              if some (pyLower t) = some "left" ∨ some (pyLower t) = some "right" ∨
                  (some (pyLower t) : Option String) = none then
                if pyUpper s ≠ "BRAIN_STEM" then
                  some (pyUpper s ++ "_" ++ pyUpper (pyLower t))
                else none
              else none
            else none) = _
          rw [if_pos m, if_pos (by rcases hc with h1 | h1 <;> simp [h1])]
        rw [heq]
        by_cases hb : pyUpper s = "BRAIN_STEM"
        · rw [if_neg (not_not_intro hb)]
          simp [m, hc, (upper_brainstem_iff s m).mp hb]
        · rw [if_pos hb]
          have hnb : pyLower s ≠ "brain_stem" :=
            fun hl => hb ((upper_brainstem_iff s m).mpr hl)
          simp [m, hnb]
          intro h1
          rcases hc with h3 | h3
          · exact absurd h3 h1
          · exact h3
      · have heq : make_fs_key s (some t) = none := by
          show (if pyLower s ∈ structures then
              if some (pyLower t) = some "left" ∨ some (pyLower t) = some "right" ∨
                  (some (pyLower t) : Option String) = none then
                if pyUpper s ≠ "BRAIN_STEM" then
                  some (pyUpper s ++ "_" ++ pyUpper (pyLower t))
                else none
              else none
            else none) = none
          rw [if_pos m, if_neg (by simpa using hc)]
        rw [heq]
        push_neg at hc
        simp [hc.1, hc.2]
      -- membership case done
  · have heq : make_fs_key s h = none := by
      show (if pyLower s ∈ structures then _ else none) = none
      rw [if_neg m]
    rw [heq]
    simp [m]

/-- Witness for C2: the characterization evaluated at the two concrete
failing inputs named by the claim. -/
theorem make_fs_key_failure_iff_witness :
    make_fs_key "brain_stem" (some "left") = none ∧
    make_fs_key "made_up_structure" none = none :=
  ⟨make_fs_key_failure_iff.2.1, make_fs_key_failure_iff.2.2⟩

/-- **C3**: every label returned by `make_fs_key` (on any accepted input)
belongs to the fixed 21-element canonical set `freesurfer_structures`. -/
theorem make_fs_key_returns_canonical (s : String) (h : Option String) (l : String)
    (hl : make_fs_key s h = some l) : l ∈ freesurfer_structures := by
  by_cases m : pyLower s ∈ structures
  · cases h with
    | none =>
      by_cases hb : pyUpper s = "BRAIN_STEM"
      · have heq : make_fs_key s none = some (pyUpper s) := by
          show (if pyLower s ∈ structures then
              if (none : Option String) = some "left" ∨
                  (none : Option String) = some "right" ∨
                  (none : Option String) = none then
                if pyUpper s = "BRAIN_STEM" then some (pyUpper s) else none
              else none
            else none) = _
          rw [if_pos m, if_pos (by simp), if_pos hb]
        rw [heq] at hl
        injection hl with hl'
        rw [← hl', hb]
        decide
      · have heq : make_fs_key s none = none := by
          show (if pyLower s ∈ structures then
              if (none : Option String) = some "left" ∨
                  (none : Option String) = some "right" ∨
                  (none : Option String) = none then
                if pyUpper s = "BRAIN_STEM" then some (pyUpper s) else none
              else none
            else none) = none
          rw [if_pos m, if_pos (by simp), if_neg hb]
        rw [heq] at hl
        cases hl
    | some t =>
      by_cases hc : pyLower t = "left" ∨ pyLower t = "right"
      · by_cases hb : pyUpper s = "BRAIN_STEM"
        · have heq : make_fs_key s (some t) = none := by
            show (if pyLower s ∈ structures then
                if some (pyLower t) = some "left" ∨ some (pyLower t) = some "right" ∨
                    (some (pyLower t) : Option String) = none then
                  if pyUpper s ≠ "BRAIN_STEM" then
                    some (pyUpper s ++ "_" ++ pyUpper (pyLower t))
                  else none
                else none
              else none) = none
            rw [if_pos m, if_pos (by rcases hc with h1 | h1 <;> simp [h1]),
              if_neg (not_not_intro hb)]
          rw [heq] at hl
          cases hl
        · have heq : make_fs_key s (some t) =
              some (pyUpper s ++ "_" ++ pyUpper (pyLower t)) := by
            show (if pyLower s ∈ structures then
                if some (pyLower t) = some "left" ∨ some (pyLower t) = some "right" ∨
                    (some (pyLower t) : Option String) = none then
                  if pyUpper s ≠ "BRAIN_STEM" then
                    some (pyUpper s ++ "_" ++ pyUpper (pyLower t))
                  else none
                else none
              else none) = _
            rw [if_pos m, if_pos (by rcases hc with h1 | h1 <;> simp [h1]), if_pos hb]
          rw [heq] at hl
          injection hl with hl'
          rw [← hl']
          have hnb : pyLower s ≠ "brain_stem" :=
            fun x => hb ((upper_brainstem_iff s m).mpr x)
          simp only [structures, List.mem_cons, List.not_mem_nil, or_false] at m
          rcases m with hm | hm | hm | hm | hm | hm | hm | hm | hm | hm | hm <;>
            first
              | exact absurd hm hnb
              | (rcases hc with h1 | h1 <;> rw [pyUpper_congr s _ hm, h1] <;> decide)
      · have heq : make_fs_key s (some t) = none := by
          show (if pyLower s ∈ structures then
              if some (pyLower t) = some "left" ∨ some (pyLower t) = some "right" ∨
                  (some (pyLower t) : Option String) = none then
                if pyUpper s ≠ "BRAIN_STEM" then
                  some (pyUpper s ++ "_" ++ pyUpper (pyLower t))
                else none
              else none
            else none) = none
          rw [if_pos m, if_neg (by simpa using hc)]
        rw [heq] at hl
        cases hl
  · have heq : make_fs_key s h = none := by
      show (if pyLower s ∈ structures then _ else none) = none
      rw [if_neg m]
    rw [heq] at hl
    cases hl

/-- Witness for C3 at `("cortex", some "left")`. -/
theorem make_fs_key_returns_canonical_witness :
    "CORTEX_LEFT" ∈ freesurfer_structures :=
  make_fs_key_returns_canonical "cortex" (some "left") "CORTEX_LEFT" (by decide)

/-- **C9**: `make_fs_key` is a bijection between the 21 valid canonical
inputs and the 21-element canonical label set: mapping it over
`validInputs` yields exactly `freesurfer_structures` (element by element,
hence each label is hit), and `freesurfer_structures` has no duplicates
(hence the labels are pairwise distinct). -/
theorem make_fs_key_bijection :
    validInputs.map (fun p => make_fs_key p.1 p.2) = freesurfer_structures.map some ∧
    freesurfer_structures.Nodup ∧
    validInputs.length = 21 ∧ freesurfer_structures.length = 21 := by
  refine ⟨by decide, by decide, by decide, by decide⟩

/-! ## Lemmas about table loading -/

/-- `read_table` only fails with a missing-file or malformed-content error
naming the requested path. -/
theorem read_table_error_cases (fs : FSMap) (p : String) (names : List String)
    (e : LoadError) (h : read_table fs p names = .error e) :
    e = .missingFile p ∨ e = .malformed p := by
  unfold read_table at h
  split at h
  · injection h with h'
    exact Or.inl h'.symm
  · split at h
    · injection h with h'
      exact Or.inr h'.symm
    · cases h

/-- Row-wise parsing succeeds on a file whose every row has exactly one
index field plus one field per declared column. -/
theorem mapM_parseRow (names : List String) (rows : FileData)
    (hw : ∀ r ∈ rows, r.length = names.length + 1) :
    rows.mapM (parseRow names) =
      some (rows.map fun r => (r.headD "", r.tail)) := by
  induction rows with
  | nil => rfl
  | cons r rs ih =>
    have hr : parseRow names r = some (r.headD "", r.tail) := by
      cases r with
      | nil =>
        have := hw [] (by simp)
        simp at this
      | cons i rest =>
        have hlen := hw (i :: rest) (by simp)
        simp only [List.length_cons] at hlen
        simp [parseRow, Nat.succ_injective hlen]
    rw [List.mapM_cons, hr, ih (fun x hx => hw x (List.mem_cons_of_mem _ hx))]
    rfl

/-- `read_table` on a present, schema-conforming file returns the keyed
table: index from the first field, data from the rest. -/
theorem read_table_ok (fs : FSMap) (p : String) (names : List String)
    (rows : FileData) (h : lookupFS fs p = some rows)
    (hw : ∀ r ∈ rows, r.length = names.length + 1) :
    read_table fs p names =
      .ok { indexName := "index", colNames := names,
            rows := rows.map fun r => (r.headD "", r.tail) } := by
  calc read_table fs p names
      = match rows.mapM (parseRow names) with
        | none => TableResult.error (.malformed p)
        | some rs => TableResult.ok ⟨"index", names, rs⟩ := by
        unfold read_table
        rw [h]
    _ = .ok ⟨"index", names, rows.map fun r => (r.headD "", r.tail)⟩ := by
        rw [mapM_parseRow names rows hw]

/-! ## Claims about `export_cifti_mapping` -/

/-- **C4**: for any contents of the three text files left by the external
tool — `S`, `L`, `R` rows for subcortex, left cortex, right cortex — the
export returns a collection with exactly the three entries (the fields of
`Maps`), whose tables have exactly as many rows as their source files, are
keyed by the first column of their source file, and have data columns named
exactly `vertex` (cortex) and `structure`, `mni_i`, `mni_j`, `mni_k`
(subcortex). -/
theorem export_returns_three_tables (tool : Tool) (tempdir parcel : String)
    (image : Option String) (fs0 : FSMap) (S L R : FileData)
    (hS : lookupFS (afterCommands tool tempdir parcel image fs0)
      (volumePath tempdir) = some S)
    (hL : lookupFS (afterCommands tool tempdir parcel image fs0)
      (leftPath tempdir) = some L)
    (hR : lookupFS (afterCommands tool tempdir parcel image fs0)
      (rightPath tempdir) = some R)
    (hSw : ∀ r ∈ S, r.length = 5)
    (hLw : ∀ r ∈ L, r.length = 2)
    (hRw : ∀ r ∈ R, r.length = 2) :
    ∃ m, (export_cifti_mapping tool tempdir parcel image fs0).result = .ok m ∧
      m.subcortex.rows.length = S.length ∧
      m.cortex_left.rows.length = L.length ∧
      m.cortex_right.rows.length = R.length ∧
      m.subcortex.rows.map Prod.fst = S.map (fun r => r.headD "") ∧
      m.cortex_left.rows.map Prod.fst = L.map (fun r => r.headD "") ∧
      m.cortex_right.rows.map Prod.fst = R.map (fun r => r.headD "") ∧
      m.subcortex.colNames = ["structure", "mni_i", "mni_j", "mni_k"] ∧
      m.cortex_left.colNames = ["vertex"] ∧
      m.cortex_right.colNames = ["vertex"] := by
  unfold export_cifti_mapping
  rw [read_table_ok _ _ ["structure", "mni_i", "mni_j", "mni_k"] S hS hSw,
    read_table_ok _ _ ["vertex"] L hL hLw, read_table_ok _ _ ["vertex"] R hR hRw]
  refine ⟨_, rfl, by simp, by simp, by simp, ?_, ?_, ?_, rfl, rfl, rfl⟩ <;>
    simp [List.map_map, Function.comp_def]

/-- Witness for C4 on a one-row subcortex file and one-row cortex files. -/
theorem export_returns_three_tables_witness :
    ∃ m, (export_cifti_mapping toolNoop "/tmp" "default.nii" none
        [(volumePath "/tmp", [["3", "CEREBELLUM_LEFT", "7", "8", "9"]]),
         (leftPath "/tmp", [["0", "10"]]),
         (rightPath "/tmp", [["1", "11"]])]).result = .ok m ∧
      m.subcortex.rows.length = [["3", "CEREBELLUM_LEFT", "7", "8", "9"]].length ∧
      m.cortex_left.rows.length = [["0", "10"]].length ∧
      m.cortex_right.rows.length = [["1", "11"]].length ∧
      m.subcortex.rows.map Prod.fst =
        [["3", "CEREBELLUM_LEFT", "7", "8", "9"]].map (fun r => r.headD "") ∧
      m.cortex_left.rows.map Prod.fst = [["0", "10"]].map (fun r => r.headD "") ∧
      m.cortex_right.rows.map Prod.fst = [["1", "11"]].map (fun r => r.headD "") ∧
      m.subcortex.colNames = ["structure", "mni_i", "mni_j", "mni_k"] ∧
      m.cortex_left.colNames = ["vertex"] ∧
      m.cortex_right.colNames = ["vertex"] :=
  export_returns_three_tables toolNoop "/tmp" "default.nii" none
    [(volumePath "/tmp", [["3", "CEREBELLUM_LEFT", "7", "8", "9"]]),
     (leftPath "/tmp", [["0", "10"]]),
     (rightPath "/tmp", [["1", "11"]])]
    [["3", "CEREBELLUM_LEFT", "7", "8", "9"]] [["0", "10"]] [["1", "11"]]
    (by decide) (by decide) (by decide) (by decide) (by decide) (by decide)

/-- **C5**: the export invokes the external process exactly three times,
each command being the base string
`wb_command -cifti-export-dense-mapping '<image>' COLUMN` followed by the
region-specific suffix — `-volume-all '<volume.txt>' -structure` for
subcortex (nothing follows `-structure`), `-surface CORTEX_LEFT
'<left.txt>'` and `-surface CORTEX_RIGHT '<right.txt>'` for the cortices.
The concatenation below reproduces the source's spacing exactly. -/
theorem export_invokes_three_commands (tool : Tool) (tempdir parcel image : String)
    (fs0 : FSMap) :
    commandsOf (export_cifti_mapping tool tempdir parcel (some image) fs0).trace =
      ["wb_command -cifti-export-dense-mapping '" ++ image ++ "' COLUMN " ++
         " -volume-all '" ++ volumePath tempdir ++ "' -structure ",
       "wb_command -cifti-export-dense-mapping '" ++ image ++ "' COLUMN " ++
         "-surface CORTEX_LEFT '" ++ leftPath tempdir ++ "'",
       "wb_command -cifti-export-dense-mapping '" ++ image ++ "' COLUMN " ++
         "-surface CORTEX_RIGHT '" ++ rightPath tempdir ++ "'"] := by
  unfold export_cifti_mapping
  split
  · rfl
  · split
    · rfl
    · split <;> rfl

/-- **C6**: with no image argument the configured default
`parcel_labels_lr` is used as the image in every invocation — the run is
identical to one that passes the default explicitly — and a supplied image
path is the one interpolated into every command. -/
theorem export_default_image (tool : Tool) (tempdir parcel : String) (fs0 : FSMap) :
    export_cifti_mapping tool tempdir parcel none fs0 =
      export_cifti_mapping tool tempdir parcel (some parcel) fs0 ∧
    commandsOf (export_cifti_mapping tool tempdir parcel none fs0).trace =
      commandList parcel (volumePath tempdir) (leftPath tempdir)
        (rightPath tempdir) ∧
    (∀ img, commandsOf
        (export_cifti_mapping tool tempdir parcel (some img) fs0).trace =
      commandList img (volumePath tempdir) (leftPath tempdir)
        (rightPath tempdir)) := by
  refine ⟨rfl, ?_, fun img => ?_⟩ <;>
    · unfold export_cifti_mapping
      split
      · rfl
      · split
        · rfl
        · split <;> rfl

/-- **C7**: the exit status of the external process is never inspected —
two tools with the same filesystem effect but arbitrary exit statuses give
identical outcomes — and the only failure surfaced is a missing-file or
malformed-content error from parsing one of the three output files. -/
theorem export_ignores_exit_status (tool₁ tool₂ : Tool)
    (tempdir parcel : String) (image : Option String) (fs0 : FSMap)
    (hfs : ∀ c f, (tool₁ c f).fs = (tool₂ c f).fs) :
    export_cifti_mapping tool₁ tempdir parcel image fs0 =
      export_cifti_mapping tool₂ tempdir parcel image fs0 ∧
    ∀ e, (export_cifti_mapping tool₁ tempdir parcel image fs0).result = .error e →
      e = .missingFile (volumePath tempdir) ∨ e = .malformed (volumePath tempdir) ∨
      e = .missingFile (leftPath tempdir) ∨ e = .malformed (leftPath tempdir) ∨
      e = .missingFile (rightPath tempdir) ∨ e = .malformed (rightPath tempdir) := by
  have hac : afterCommands tool₁ tempdir parcel image fs0 =
      afterCommands tool₂ tempdir parcel image fs0 := by
    unfold afterCommands
    simp only [hfs]
  constructor
  · unfold export_cifti_mapping
    rw [hac]
  · intro e he
    unfold export_cifti_mapping at he
    split at he
    · simp only at he
      rename_i e' heq
      injection he with he'
      subst he'
      rcases read_table_error_cases _ _ _ _ heq with h | h <;> simp [h]
    · split at he
      · simp only at he
        rename_i e' heq
        injection he with he'
        subst he'
        rcases read_table_error_cases _ _ _ _ heq with h | h <;> simp [h]
      · split at he
        · simp only at he
          rename_i e' heq
          injection he with he'
          subst he'
          rcases read_table_error_cases _ _ _ _ heq with h | h <;> simp [h]
        · cases he

/-- Witness for C7: two stub tools identical on the filesystem but with
exit statuses 0 and 1 produce the same outcome on an empty filesystem, and
the resulting error names one of the three files. -/
theorem export_ignores_exit_status_witness :
    export_cifti_mapping toolNoop "/tmp" "default.nii" none [] =
      export_cifti_mapping toolNoopFail "/tmp" "default.nii" none [] ∧
    ∀ e, (export_cifti_mapping toolNoop "/tmp" "default.nii" none []).result =
        .error e →
      e = .missingFile (volumePath "/tmp") ∨ e = .malformed (volumePath "/tmp") ∨
      e = .missingFile (leftPath "/tmp") ∨ e = .malformed (leftPath "/tmp") ∨
      e = .missingFile (rightPath "/tmp") ∨ e = .malformed (rightPath "/tmp") :=
  export_ignores_exit_status toolNoop toolNoopFail "/tmp" "default.nii" none []
    (fun _ _ => rfl)

/-- **C8**: on every call the three output files are directed to the fixed
paths `join(tempdir, "volume.txt")`, `join(tempdir, "left.txt")`,
`join(tempdir, "right.txt")` — the commands passed to the tool name exactly
these paths, which depend only on the temporary directory, not on the call —
and no exit path of the function removes any file. -/
theorem export_fixed_paths_no_cleanup (tool : Tool) (tempdir parcel : String)
    (image : Option String) (fs0 : FSMap) :
    commandsOf (export_cifti_mapping tool tempdir parcel image fs0).trace =
      commandList (imageOf parcel image) (joinPath tempdir "volume.txt")
        (joinPath tempdir "left.txt") (joinPath tempdir "right.txt") ∧
    (∀ p, Effect.removeFile p ∉
      (export_cifti_mapping tool tempdir parcel image fs0).trace) := by
  constructor
  · unfold export_cifti_mapping
    split
    · rfl
    · split
      · rfl
      · split <;> rfl
  · intro p
    unfold export_cifti_mapping
    split
    · simp [exportCmdTrace, commandList]
    · split
      · simp [exportCmdTrace, commandList]
      · split <;> simp [exportCmdTrace, commandList]

/-- **C10**: with a supplied image path, the run is independent of the
configured default `parcel_labels_lr`: any two defaults give literally the
same outcome (commands, filesystem, trace, and result). -/
theorem export_independent_of_default (tool : Tool)
    (tempdir parcel₁ parcel₂ img : String) (fs0 : FSMap) :
    export_cifti_mapping tool tempdir parcel₁ (some img) fs0 =
      export_cifti_mapping tool tempdir parcel₂ (some img) fs0 := rfl

end Cifti
